import Mathlib

/-!
Verification development for the clippy sidecar (Python sources
`sidecar/lancedb_store.py`, `sidecar/letta_agent.py`, `sidecar/main.py`).

The Python code is shallowly embedded: pure string/list manipulation is
translated directly; external capabilities (the embedding model, the remote
chat/vision completion API) are passed in as explicit function parameters,
with possible failure modelled by `Except String`; the LanceDB table is a
`List ClipboardItem`; nondeterministic inputs of the source (uuid4, wall
clock) are explicit parameters.
-/

namespace Clippy

/-! ## Memory store (`lancedb_store.py`) -/

/-- Embedding of the stored record schema of `lancedb_store.py` (class
`ClipboardItem` / the dicts handed to LanceDB). Vectors are lists of
integers: the claims treat the embedding capability as an abstract
deterministic function, and only comparisons of squared distances matter,
so integer coordinates are used in place of floats. The float timestamp is
likewise modelled as an integer; no claim inspects it. -/
structure ClipboardItem where
  id : String
  text_content : String
  timestamp : Int
  source_app : String
  tags : List String
  vector : List Int
  deriving DecidableEq, Repr

/-- Squared L2 distance between two vectors, the exact nearest-neighbour
metric the claims stipulate for the modelled LanceDB search (componentwise
over the common length). -/
def dist2 : List Int → List Int → Int
  | a :: as, b :: bs => (a - b) * (a - b) + dist2 as bs
  | _, _ => 0

/-- Embedding of `LanceDBStore._init_table`: if the table is absent it is
created (seeded with the sentinel record, fixing the schema), otherwise
nothing happens. The database is modelled by its list of table names; the
returned flag records whether a creation was performed. -/
def initTable (tableNames : List String) : List String × Bool :=
  if "clipboard_memory" ∈ tableNames then (tableNames, false)
  else (tableNames ++ ["clipboard_memory"], true)

/-- Sentinel record inserted by `_init_table` to fix the schema: id `init`,
zero vector of the embedding dimension (384 for bge-small-en-v1.5). -/
def initItem : ClipboardItem :=
  { id := "init", text_content := "init", timestamp := 0,
    source_app := "init", tags := ["init"], vector := List.replicate 384 0 }

/-- Embedding of `LanceDBStore.add_item`: embed the text, build the record
with a fresh id and the current time, append it to the table. uuid4 and
time.time are modelled as the explicit parameters `newId` and `now`. Returns
the updated table and the new id, mirroring the Python return value. -/
def add_item (embed : String → List Int) (tbl : List ClipboardItem)
    (newId : String) (now : Int) (text source_app : String)
    (tags : List String) : List ClipboardItem × String :=
  let vector := embed text
  let item : ClipboardItem :=
    { id := newId, text_content := text, timestamp := now,
      source_app := source_app, tags := tags, vector := vector }
  (tbl ++ [item], newId)

/-- Comparator used by the modelled nearest-neighbour ranking: at most as
far from the query vector. -/
def distLe (query_vector : List Int) (a b : ClipboardItem) : Bool :=
  decide (dist2 query_vector a.vector ≤ dist2 query_vector b.vector)

/-- Embedding of `LanceDBStore.search`: embed the query, rank the stored
records by vector distance to the query (exact nearest neighbour over the
stored vectors, as the claims stipulate for the external engine), keep the
first `limit`, then drop the sentinel record. -/
def search (embed : String → List Int) (tbl : List ClipboardItem)
    (query : String) (limit : Nat) : List ClipboardItem :=
  let query_vector := embed query
  let results := (List.mergeSort tbl (distLe query_vector)).take limit
  results.filter (fun r => r.id ≠ "init")

/-- Deterministic toy embedding used only to instantiate the abstract
embedding-capability parameter on concrete inputs. -/
def embedLen (s : String) : List Int := [(s.length : Int)]

/-! ## Agent orchestrator (`letta_agent.py`) -/

/-- Persona core-memory block, verbatim from `LettaLiteAgent.__init__`. -/
def personaBlock : String :=
  "You are Clippy, a helpful, slightly mischievous desktop assistant for macOS. You have a dry sense of humor. You love helping developers. You prefer concise answers but occasionally make a paperclip joke."

/-- Human core-memory block, verbatim from `LettaLiteAgent.__init__`. -/
def humanBlock : String :=
  "User is a developer working on a hackathon project. They are using Swift and Python."

/-- Resolution of the credential in `LettaLiteAgent.__init__`:
`os.environ.get("GROK_API_KEY") or "xai-dummy-key"`. A missing variable and
the empty string (both falsy in Python) yield the dummy key. -/
def getApiKey (env : Option String) : String :=
  match env with
  | none => "xai-dummy-key"
  | some s => if s == "" then "xai-dummy-key" else s

/-- Clipboard entry of the host-supplied context map (`context["clipboard_items"]`);
the Python code reads `content` and `timestamp` with `dict.get` and splices
them into an f-string, so the timestamp is kept as already-rendered text. -/
structure ClipCtxItem where
  content : String
  timestamp : String
  deriving DecidableEq, Repr

/-- Host-supplied context map consumed by `_construct_system_prompt`:
`app_name` (absent gives the default `Unknown`) and `clipboard_items`. -/
structure Context where
  app_name : Option String
  clipboard_items : List ClipCtxItem
  deriving DecidableEq, Repr

/-- Embedding of `LettaLiteAgent._construct_system_prompt`: persona and
human blocks, the active application name, and the clipboard history with
each content truncated to 200 characters. -/
def constructSystemPrompt (ctx : Context) : String :=
  let app_name := ctx.app_name.getD "Unknown"
  let rag_text :=
    if ctx.clipboard_items.isEmpty then ""
    else "\nRELEVANT CLIPBOARD HISTORY:\n" ++
      String.join (ctx.clipboard_items.map
        (fun it => "- [" ++ it.timestamp ++ "] " ++ it.content.take 200 ++ "\n"))
  "SYSTEM MEMORY:\n[PERSONA]\n" ++ personaBlock ++ "\n\n[HUMAN]\n" ++ humanBlock ++
    "\n\n[CONTEXT]\nUser is currently using: " ++ app_name ++ "\n" ++ rag_text ++
    "\nINSTRUCTIONS:\nAnswer the user\x27s query based on your memory and the context provided. You can update your memory if you learn something new about the user or yourself."

/-- Parsed JSON object holding the arguments of a tool call (the
`json.loads` result), modelled as a string-to-string association list. -/
abbrev Args : Type := List (String × String)

/-- Lookup in a parsed argument object, modelling Python `dict.get(key)`. -/
def Args.get (args : Args) (key : String) : Option String :=
  List.lookup key args

/-- Tool call requested by the model (`response_message.tool_calls[i]`).
The raw `function.arguments` string is represented by its `json.loads`
outcome: `Except.error` models a parse exception (which the source lets
propagate to the outer handler), `Except.ok` the parsed object. -/
structure ToolCallReq where
  id : String
  function_name : String
  function_arguments : Except String Args
  deriving Repr

/-- Assistant message returned by the chat capability
(`completion.choices[0].message`): optional text content plus requested
tool calls (Python `None` for no tool calls coincides with the empty list
under the truthiness test the source uses). -/
structure ResponseMessage where
  content : Option String
  tool_calls : List ToolCallReq
  deriving Repr

/-- Conversation turn as appended to the `messages` list of
`process_message`: the initial system/user dicts, the assistant message
with tool calls, and tool-result dicts keyed by tool-call id. -/
inductive ChatMsg where
  | system (content : String)
  | user (content : String)
  | assistant (rm : ResponseMessage)
  | tool (tool_call_id : String) (toolname : String) (content : String)
  deriving Repr

/-- Client-side tool call handed back to the host
(`client_tool_calls` entries: a name and the parsed parameters). -/
structure ClientToolCall where
  name : String
  parameters : Args
  deriving DecidableEq, Repr

/-- Result dict of `process_message`: response text (`None` possible, since
the source forwards `response_message.content` unchanged) and the
client-side tool calls. -/
structure AgentResult where
  response : Option String
  tool_calls : List ClientToolCall
  deriving DecidableEq, Repr

/-- Apology text produced by the `except` handler of `process_message`. -/
def apologyMsg (e : String) : String :=
  "I tried to think, but my brain (Grok API) hurt. Error: " ++ e

/-- Embedding of `LettaLiteAgent._execute_search_github`: the simulated
GitHub search, a pure string builder over the query (`dict.get` may yield
Python `None`, rendered as `None` by the f-string). JSON escaping of the
interpolated query is not modelled; no claim inspects this payload. -/
def searchGithubResult (query : Option String) : String :=
  let q := match query with | none => "None" | some s => s
  "\x7b\"results\": [\x7b\"name\": \"" ++ q ++ "-lib\", \"url\": \"https://github.com/example/" ++
    q ++ "-lib\", \"stars\": 1200\x7d, \x7b\"name\": \"awesome-" ++ q ++
    "\", \"url\": \"https://github.com/example/awesome-" ++ q ++ "\", \"stars\": 4500\x7d]\x7d"

/-- Mock reply of `LettaLiteAgent._mock_response`. -/
def mockResponse (message : String) : String :=
  "I\x27m in Mock Mode (No Grok API Key found). I heard you say: \x27" ++ message ++
    "\x27. My persona is: " ++ personaBlock.take 50 ++ "..."

/-- Prefix check over character lists, used to model the Python substring
test `"github" in message.lower()`. -/
def isPrefixChars : List Char → List Char → Bool
  | [], _ => true
  | _ :: _, [] => false
  | a :: as, b :: bs => a == b && isPrefixChars as bs

/-- Infix check over character lists. -/
def isInfixChars (needle : List Char) : List Char → Bool
  | [] => needle.isEmpty
  | c :: rest => isPrefixChars needle (c :: rest) || isInfixChars needle rest

/-- Substring test modelling the Python `in` operator on strings. -/
def containsSub (haystack needle : String) : Bool :=
  isInfixChars needle.data haystack.data

/-- Lowercasing modelling the Python `str.lower()` method, as a map of the
per-character lowercase function over the text. -/
def strLower (s : String) : String :=
  String.mk (s.data.map Char.toLower)

/-- Outcome of the tool-call loop of `process_message`: either the loop ran
to completion (with the grown message list and the second-pass flag) or a
`return` statement fired inside it. -/
inductive LoopStep where
  | finished (msgs : List ChatMsg) (second : Bool)
  | earlyReturn (r : AgentResult)
  deriving Repr

/-- Embedding of the `for tool_call in response_message.tool_calls` loop of
`process_message`. A failing `json.loads` raises, which the outer `except`
turns into the apology result. A `search_github` call appends its
tool-result turn and flags the second pass. The first `paste_to_app` call
returns at once with the fixed acknowledgment and the accumulated
client-side tool calls. Any other tool name falls through the if/elif
chain and is skipped. -/
def toolLoop (msgs : List ChatMsg) (second : Bool)
    (client_tool_calls : List ClientToolCall) : List ToolCallReq → LoopStep
  | [] => .finished msgs second
  | tc :: rest =>
    match tc.function_arguments with
    | .error e => .earlyReturn { response := some (apologyMsg e), tool_calls := [] }
    | .ok args =>
      if tc.function_name == "search_github" then
        toolLoop
          (msgs ++ [ChatMsg.tool tc.id "search_github" (searchGithubResult (args.get "query"))])
          true client_tool_calls rest
      else if tc.function_name == "paste_to_app" then
        .earlyReturn
          { response := some "I\x27m pasting that for you.",
            tool_calls := client_tool_calls ++ [{ name := "paste_to_app", parameters := args }] }
      else
        toolLoop msgs second client_tool_calls rest

/-- Initial message list of `process_message`: the system prompt (context
prompt plus the formatted archival-memory search results for the query,
each preview truncated to 100 characters) followed by the user message. -/
def initialMessages (embed : String → List Int) (tbl : List ClipboardItem)
    (message : String) (ctx : Context) : List ChatMsg :=
  let search_results := search embed tbl message 3
  let formatted_results := "\nARCHIVAL MEMORY SEARCH RESULTS:\n" ++
    String.join (search_results.map (fun r => "- " ++ r.text_content.take 100 ++ "...\n"))
  [ChatMsg.system (constructSystemPrompt ctx ++ formatted_results), ChatMsg.user message]

/-- Embedding of `LettaLiteAgent.process_message`. The store table, the
embedding capability and the two chat-completion requests (the first with
the tool schema attached, the second plain) are explicit parameters; a
capability returning `Except.error` models a raised exception, which the
source catches and converts to the apology result. In mock mode (dummy
api key) the model is never called and the canned replies are returned. -/
def processMessage (embed : String → List Int) (tbl : List ClipboardItem)
    (apiKey : String) (chatFirst chatSecond : List ChatMsg → Except String ResponseMessage)
    (message : String) (ctx : Context) : AgentResult :=
  let msgs := initialMessages embed tbl message ctx
  if apiKey == "xai-dummy-key" then
    if containsSub (strLower message) "github" then
      { response := some "I\x27m in Mock Mode. I would search GitHub for that. (Set GROK_API_KEY for real tools)",
        tool_calls := [] }
    else
      { response := some (mockResponse message), tool_calls := [] }
  else
    match chatFirst msgs with
    | .error e => { response := some (apologyMsg e), tool_calls := [] }
    | .ok response_message =>
      if response_message.tool_calls.isEmpty then
        { response := response_message.content, tool_calls := [] }
      else
        match toolLoop (msgs ++ [ChatMsg.assistant response_message]) false []
            response_message.tool_calls with
        | .earlyReturn r => r
        | .finished msgs2 requires_second_pass =>
          if requires_second_pass then
            match chatSecond msgs2 with
            | .error e => { response := some (apologyMsg e), tool_calls := [] }
            | .ok second_response =>
              { response := second_response.content, tool_calls := [] }
          else
            { response := response_message.content, tool_calls := [] }

/-- Fixed placeholder returned by the mock branch of `process_vision`. -/
def mockVisionText : String :=
  "I see an image! (Mock Vision Response - Set GROK_API_KEY to use Grok Vision)"

/-- Embedding of `LettaLiteAgent.process_vision`. The remote vision request
(base64 encoding plus the chat-completion call) is the capability
parameter `visionCall` on the raw bytes; the returned flag records whether
that capability was invoked at all, so the mock branch provably performs
no outbound attempt. An error from the capability is caught and turned
into the apologetic text. -/
def processVision (apiKey : String) (visionCall : List Nat → Except String String)
    (image_data : List Nat) : String × Bool :=
  if apiKey == "xai-dummy-key" then
    (mockVisionText, false)
  else
    match visionCall image_data with
    | .ok content => (content, true)
    | .error e => ("I tried to look, but my eyes (Grok Vision) failed. Error: " ++ e, true)

/-! ## Transport layer (`main.py`) -/

/-- Method names defined on class `LettaLiteAgent` in `letta_agent.py`;
Python attribute lookup on an instance succeeds exactly for these. -/
def lettaLiteAgentMethods : List String :=
  ["__init__", "_construct_system_prompt", "process_vision", "process_message",
   "_execute_search_github", "_mock_response"]

/-- Python attribute lookup plus call on the agent singleton: a name not
among the class methods raises `AttributeError`. The success value stands
for whatever the found method would return; for the reflect endpoint the
success branch is unreachable because no `run_reflector` method exists. -/
def invokeAgentMethod (methodName : String) : Except String String :=
  if lettaLiteAgentMethods.contains methodName then .ok ""
  else .error ("\x27LettaLiteAgent\x27 object has no attribute \x27" ++ methodName ++ "\x27")

/-- Outcome of an HTTP handler: a success body or an HTTPException with a
status code and detail, as raised in `main.py`. -/
inductive HandlerOutcome where
  | success (body : String × String)
  | httpError (status : Nat) (detail : String)
  deriving DecidableEq, Repr

/-- Embedding of the `/v1/agent/reflect` handler of `main.py`: it calls
`agent.run_reflector()` inside try/except and converts any exception into
an HTTPException with status 500 and the stringified error as detail. -/
def agentReflect : HandlerOutcome :=
  match invokeAgentMethod "run_reflector" with
  | .ok persona => .success ("success", persona)
  | .error e => .httpError 500 e

/-! ## Auxiliary lemmas -/

theorem dist2_self (v : List Int) : dist2 v v = 0 := by
  induction v with
  | nil => rfl
  | cons a as ih => simp [dist2, ih]

theorem dist2_nonneg (x : List Int) : ∀ y : List Int, 0 ≤ dist2 x y := by
  induction x with
  | nil => intro y; cases y <;> simp [dist2]
  | cons a as ih =>
    intro y
    cases y with
    | nil => simp [dist2]
    | cons b bs =>
      have h1 : 0 ≤ (a - b) * (a - b) := mul_self_nonneg _
      have h2 : 0 ≤ dist2 as bs := ih bs
      simpa [dist2] using add_nonneg h1 h2

theorem dist2_eq_zero (x : List Int) :
    ∀ y : List Int, x.length = y.length → dist2 x y = 0 → x = y := by
  induction x with
  | nil =>
    intro y hlen _
    cases y with
    | nil => rfl
    | cons b bs => simp at hlen
  | cons a as ih =>
    intro y hlen hd
    cases y with
    | nil => simp at hlen
    | cons b bs =>
      have h1 : 0 ≤ (a - b) * (a - b) := mul_self_nonneg _
      have h2 : 0 ≤ dist2 as bs := dist2_nonneg as bs
      have hsum : (a - b) * (a - b) + dist2 as bs = 0 := by simpa [dist2] using hd
      have hab : (a - b) * (a - b) = 0 := by linarith
      have htl : dist2 as bs = 0 := by linarith
      have hab' : a = b := sub_eq_zero.mp (mul_self_eq_zero.mp hab)
      have hlen' : as.length = bs.length := by simpa using hlen
      rw [hab', ih bs hlen' htl]

theorem distLe_trans (qv : List Int) :
    ∀ a b c : ClipboardItem, distLe qv a b = true → distLe qv b c = true →
      distLe qv a c = true := by
  intro a b c hab hbc
  simp only [distLe, decide_eq_true_eq] at *
  exact le_trans hab hbc

theorem distLe_total (qv : List Int) :
    ∀ a b : ClipboardItem, (distLe qv a b || distLe qv b a) = true := by
  intro a b
  simp only [distLe, Bool.or_eq_true, decide_eq_true_eq]
  exact le_total _ _

/-! ## Claims about the memory store -/

/-- Claim C4: for every query and limit, `search` returns at most `limit`
records, never returns the sentinel record (id `init`), and when the store
holds only sentinel records it returns the empty list (and, being a total
function, raises no error). -/
theorem search_limit_and_sentinel (embed : String → List Int)
    (tbl : List ClipboardItem) (query : String) (limit : Nat) :
    (search embed tbl query limit).length ≤ limit ∧
    (∀ r ∈ search embed tbl query limit, r.id ≠ "init") ∧
    ((∀ it ∈ tbl, it.id = "init") → search embed tbl query limit = []) := by
  refine ⟨?_, ?_, ?_⟩
  · exact le_trans (List.length_filter_le _ _) (List.length_take_le _ _)
  · intro r hr
    have h := (List.mem_filter.mp hr).2
    simpa using h
  · intro hall
    unfold search
    rw [List.filter_eq_nil_iff]
    intro a ha
    have ha' : a ∈ tbl :=
      (List.mergeSort_perm tbl (distLe (embed query))).mem_iff.mp
        (List.mem_of_mem_take ha)
    simp [hall a ha']

/-- Witness for C4 at a concrete store holding only the sentinel record. -/
theorem search_limit_and_sentinel_witness :
    (search embedLen [initItem] "query" 5).length ≤ 5 ∧
    (∀ r ∈ search embedLen [initItem] "query" 5, r.id ≠ "init") ∧
    search embedLen [initItem] "query" 5 = [] := by
  have h := search_limit_and_sentinel embedLen [initItem] "query" 5
  exact ⟨h.1, h.2.1, h.2.2 (by decide)⟩

/-- Claim C8: running the schema-initialization step twice from any
starting state with at most one `clipboard_memory` table leaves exactly one
such table, and the second run performs no creation (and, being total,
raises no error). -/
theorem initTable_twice (tableNames : List String)
    (h : tableNames.count "clipboard_memory" ≤ 1) :
    (initTable (initTable tableNames).1).2 = false ∧
    (initTable (initTable tableNames).1).1.count "clipboard_memory" = 1 := by
  by_cases mem : "clipboard_memory" ∈ tableNames
  · have hpos : 0 < tableNames.count "clipboard_memory" := List.count_pos_iff.mpr mem
    have h1 : initTable tableNames = (tableNames, false) := by simp [initTable, mem]
    rw [h1, h1]
    exact ⟨rfl, le_antisymm h hpos⟩
  · have hz : tableNames.count "clipboard_memory" = 0 := List.count_eq_zero.mpr mem
    simp [initTable, mem, List.count_append, hz]

theorem search_mem_of_perfect (embed : String → List Int)
    (l : List ClipboardItem) (t : String) (limit : Nat)
    (hlimit : 1 ≤ limit)
    (hlen : ∀ it ∈ l, it.vector.length = (embed t).length)
    (hperf : ∃ it ∈ l, it.vector = embed t)
    (hgood : ∀ it ∈ l, it.vector = embed t → it.id ≠ "init" ∧ it.text_content = t) :
    ∃ r ∈ search embed l t limit, r.text_content = t := by
  obtain ⟨w, hwl, hwv⟩ := hperf
  have hperm := List.mergeSort_perm l (distLe (embed t))
  have hw_s : w ∈ List.mergeSort l (distLe (embed t)) := hperm.mem_iff.mpr hwl
  obtain ⟨h0, rest, hcons⟩ :
      ∃ h0 rest, List.mergeSort l (distLe (embed t)) = h0 :: rest := by
    cases hsv : List.mergeSort l (distLe (embed t)) with
    | nil => rw [hsv] at hw_s; simp at hw_s
    | cons a as => exact ⟨a, as, rfl⟩
  have hsorted := List.sorted_mergeSort (distLe_trans (embed t)) (distLe_total (embed t)) l
  rw [hcons] at hsorted
  have hhead_le : ∀ x ∈ rest, distLe (embed t) h0 x = true :=
    (List.pairwise_cons.mp hsorted).1
  have hd_w : dist2 (embed t) w.vector = 0 := by rw [hwv]; exact dist2_self _
  have hd0 : dist2 (embed t) h0.vector = 0 := by
    rcases List.mem_cons.mp (hcons ▸ hw_s) with heq | hmem
    · rw [← heq]; exact hd_w
    · have hle := hhead_le w hmem
      simp only [distLe, decide_eq_true_eq] at hle
      have hnn := dist2_nonneg (embed t) h0.vector
      rw [hd_w] at hle
      exact le_antisymm hle hnn
  have hmem_h0_l : h0 ∈ l := hperm.mem_iff.mp (hcons ▸ List.mem_cons_self h0 rest)
  have hveq : embed t = h0.vector :=
    dist2_eq_zero (embed t) h0.vector (hlen h0 hmem_h0_l).symm hd0
  have hprops := hgood h0 hmem_h0_l hveq.symm
  obtain ⟨k, hk⟩ : ∃ k, limit = k + 1 := ⟨limit - 1, by omega⟩
  have htake : h0 ∈ (List.mergeSort l (distLe (embed t))).take limit := by
    rw [hcons, hk]
    exact List.mem_cons_self h0 _
  refine ⟨h0, ?_, hprops.2⟩
  exact List.mem_filter.mpr ⟨htake, by simp [hprops.1]⟩

/-- Record built by `add_item` for a given text and metadata; named here so
proofs can refer to it compactly. -/
def addedItem (embed : String → List Int) (newId : String) (now : Int)
    (t source_app : String) (tags : List String) : ClipboardItem :=
  { id := newId, text_content := t, timestamp := now,
    source_app := source_app, tags := tags, vector := embed t }

theorem add_item_fst (embed : String → List Int) (tbl : List ClipboardItem)
    (newId : String) (now : Int) (t source_app : String) (tags : List String) :
    (add_item embed tbl newId now t source_app tags).1 =
      tbl ++ [addedItem embed newId now t source_app tags] := rfl

/-- Claim C5: with the embedding capability a deterministic pure function
and nearest-neighbour search exact over the stored vectors, adding an item
with content `t` and then searching for `t` returns the exact-match record
within the top `limit` results. Hypotheses record the setting the claim
presupposes: a positive limit, a fresh id distinct from the sentinel id,
stored vectors of the embedding dimension, and no stored record colliding
with the embedding of `t` other than records whose content is `t` (the
sentinel in particular does not collide). -/
theorem add_item_then_search_finds (embed : String → List Int)
    (tbl : List ClipboardItem) (newId : String) (now : Int)
    (t source_app : String) (tags : List String) (limit : Nat)
    (hlimit : 1 ≤ limit)
    (hid : newId ≠ "init")
    (hlen : ∀ it ∈ tbl, it.vector.length = (embed t).length)
    (hcoll : ∀ it ∈ tbl, it.vector = embed t → it.id ≠ "init" ∧ it.text_content = t) :
    ∃ r ∈ search embed (add_item embed tbl newId now t source_app tags).1 t limit,
      r.text_content = t := by
  rw [add_item_fst]
  apply search_mem_of_perfect
  · exact hlimit
  · intro it hit
    rcases List.mem_append.mp hit with hin | hin
    · exact hlen it hin
    · have heq : it = addedItem embed newId now t source_app tags := by simpa using hin
      rw [heq]
      rfl
  · exact ⟨addedItem embed newId now t source_app tags, by simp, rfl⟩
  · intro it hit hv
    rcases List.mem_append.mp hit with hin | hin
    · exact hcoll it hin hv
    · have heq : it = addedItem embed newId now t source_app tags := by simpa using hin
      rw [heq]
      exact ⟨hid, rfl⟩

/-- Witness for C5: a concrete round trip through `add_item` and `search`
on the empty store. -/
theorem add_item_then_search_finds_witness :
    ∃ r ∈ search embedLen (add_item embedLen [] "id-1" 7 "hello" "Notes" []).1 "hello" 5,
      r.text_content = "hello" :=
  add_item_then_search_finds embedLen [] "id-1" 7 "hello" "Notes" [] 5
    (by decide) (by decide) (by decide) (by decide)

/-- Witness for C8 starting from the empty database. -/
theorem initTable_twice_witness :
    (initTable (initTable []).1).2 = false ∧
    (initTable (initTable []).1).1.count "clipboard_memory" = 1 :=
  initTable_twice [] (by decide)

/-! ## Lemmas about the tool-call loop -/

/-- Total projection of a parse outcome to the parsed arguments, with the
empty object on the error case; used only under a hypothesis that the
parse succeeded. -/
def argsD : Except String Args → Args
  | .ok a => a
  | .error _ => []

/-- Tool-result turn appended for an executed `search_github` call, keyed
to the original tool-call id. -/
def toolResultMsg (tc : ToolCallReq) : ChatMsg :=
  ChatMsg.tool tc.id "search_github"
    (searchGithubResult (Args.get (argsD tc.function_arguments) "query"))

theorem toolLoop_first_paste (pasteTc : ToolCallReq) (args : Args)
    (post : List ToolCallReq)
    (hname : pasteTc.function_name = "paste_to_app")
    (hargs : pasteTc.function_arguments = .ok args) :
    ∀ (pre : List ToolCallReq) (msgs : List ChatMsg) (second : Bool)
      (ctc : List ClientToolCall),
      (∀ tc ∈ pre, tc.function_name ≠ "paste_to_app" ∧
        ∃ a, tc.function_arguments = .ok a) →
      toolLoop msgs second ctc (pre ++ pasteTc :: post) =
        .earlyReturn { response := some "I\x27m pasting that for you.",
                       tool_calls := ctc ++
                         [{ name := "paste_to_app", parameters := args }] } := by
  intro pre
  induction pre with
  | nil =>
    intro msgs second ctc _
    simp [toolLoop, hargs, hname]
  | cons tc pre ih =>
    intro msgs second ctc hpre
    obtain ⟨hne, a, ha⟩ := hpre tc (List.mem_cons_self tc pre)
    have hrest : ∀ tc' ∈ pre, tc'.function_name ≠ "paste_to_app" ∧
        ∃ a, tc'.function_arguments = .ok a :=
      fun tc' h => hpre tc' (List.mem_cons_of_mem tc h)
    have hp : (tc.function_name == "paste_to_app") = false := by
      simpa using hne
    rw [List.cons_append]
    by_cases hs : (tc.function_name == "search_github") = true
    · simp only [toolLoop, ha, hs, if_true]
      exact ih _ _ _ hrest
    · simp only [toolLoop, ha, hs, hp, Bool.false_eq_true, if_false]
      exact ih _ _ _ hrest

theorem toolLoop_all_search :
    ∀ (tcs : List ToolCallReq) (msgs : List ChatMsg) (second : Bool)
      (ctc : List ClientToolCall),
      (∀ tc ∈ tcs, tc.function_name = "search_github" ∧
        ∃ a, tc.function_arguments = .ok a) →
      toolLoop msgs second ctc tcs =
        .finished (msgs ++ tcs.map toolResultMsg) (second || !tcs.isEmpty) := by
  intro tcs
  induction tcs with
  | nil => intro msgs second ctc _; simp [toolLoop]
  | cons tc rest ih =>
    intro msgs second ctc hall
    obtain ⟨hname, a, ha⟩ := hall tc (List.mem_cons_self tc rest)
    have hrest : ∀ tc' ∈ rest, tc'.function_name = "search_github" ∧
        ∃ a, tc'.function_arguments = .ok a :=
      fun tc' h => hall tc' (List.mem_cons_of_mem tc h)
    have hres : toolResultMsg tc =
        ChatMsg.tool tc.id "search_github" (searchGithubResult (Args.get a "query")) := by
      simp [toolResultMsg, ha, argsD]
    simp only [toolLoop, ha, hname]
    rw [ih _ _ _ hrest]
    simp [hres, List.append_assoc]

theorem processMessage_all_search (embed : String → List Int)
    (tbl : List ClipboardItem) (apiKey : String)
    (chatFirst chatSecond : List ChatMsg → Except String ResponseMessage)
    (message : String) (ctx : Context) (rm : ResponseMessage)
    (hkey : (apiKey == "xai-dummy-key") = false)
    (hchat : chatFirst (initialMessages embed tbl message ctx) = .ok rm)
    (hne : rm.tool_calls ≠ [])
    (hall : ∀ tc ∈ rm.tool_calls, tc.function_name = "search_github" ∧
      ∃ a, tc.function_arguments = .ok a) :
    processMessage embed tbl apiKey chatFirst chatSecond message ctx =
      match chatSecond (initialMessages embed tbl message ctx ++
          [ChatMsg.assistant rm] ++ rm.tool_calls.map toolResultMsg) with
      | .error e => { response := some (apologyMsg e), tool_calls := [] }
      | .ok second_response =>
          { response := second_response.content, tool_calls := [] } := by
  have hempty : rm.tool_calls.isEmpty = false := by
    simpa [List.isEmpty_iff] using hne
  unfold processMessage
  rw [hkey]
  simp only [Bool.false_eq_true, if_false]
  rw [hchat]
  simp only [hempty, Bool.false_eq_true, if_false]
  rw [toolLoop_all_search rm.tool_calls _ false [] hall]
  simp only [hempty, Bool.not_false, Bool.or_true, if_true, List.append_assoc]

/-! ## Claims about the orchestrator -/

/-- Claim C1: when the model requests a batch of tool calls in which the
first client-side call is a `paste_to_app` (any earlier calls being
server-side or unknown, with well-formed argument payloads), the
orchestrator returns immediately: the fixed acknowledgment text together
with a client tool-call list holding exactly the one `paste_to_app` entry
whose parameters are the arguments the model requested; the calls after it
are never processed and no host round trip is awaited. -/
theorem processMessage_first_paste (embed : String → List Int)
    (tbl : List ClipboardItem) (apiKey : String)
    (chatFirst chatSecond : List ChatMsg → Except String ResponseMessage)
    (message : String) (ctx : Context) (rm : ResponseMessage)
    (pre post : List ToolCallReq) (pasteTc : ToolCallReq) (args : Args)
    (hkey : (apiKey == "xai-dummy-key") = false)
    (hchat : chatFirst (initialMessages embed tbl message ctx) = .ok rm)
    (hbatch : rm.tool_calls = pre ++ pasteTc :: post)
    (hpre : ∀ tc ∈ pre, tc.function_name ≠ "paste_to_app" ∧
      ∃ a, tc.function_arguments = .ok a)
    (hname : pasteTc.function_name = "paste_to_app")
    (hargs : pasteTc.function_arguments = .ok args) :
    processMessage embed tbl apiKey chatFirst chatSecond message ctx =
      { response := some "I\x27m pasting that for you.",
        tool_calls := [{ name := "paste_to_app", parameters := args }] } := by
  have hempty : rm.tool_calls.isEmpty = false := by
    rw [hbatch]
    simp
  unfold processMessage
  rw [hkey]
  simp only [Bool.false_eq_true, if_false]
  rw [hchat]
  simp only [hempty, Bool.false_eq_true, if_false]
  rw [hbatch, toolLoop_first_paste pasteTc args post hname hargs pre _ false [] hpre]
  simp

/-- Witness for C1: a simulated model response requesting a single paste of
the literal text Hello World. -/
theorem processMessage_first_paste_witness :
    processMessage embedLen [] "real-key"
      (fun _ => .ok { content := some "ack",
                      tool_calls := [{ id := "call-1",
                                       function_name := "paste_to_app",
                                       function_arguments :=
                                         .ok [("content", "Hello World")] }] })
      (fun _ => .error "unused")
      "Paste \x27Hello World\x27 here please" { app_name := none, clipboard_items := [] } =
      { response := some "I\x27m pasting that for you.",
        tool_calls := [{ name := "paste_to_app",
                         parameters := [("content", "Hello World")] }] } := by
  exact processMessage_first_paste embedLen [] "real-key" _ _
    "Paste \x27Hello World\x27 here please" { app_name := none, clipboard_items := [] }
    { content := some "ack",
      tool_calls := [{ id := "call-1",
                       function_name := "paste_to_app",
                       function_arguments := .ok [("content", "Hello World")] }] }
    [] []
    { id := "call-1",
      function_name := "paste_to_app",
      function_arguments := .ok [("content", "Hello World")] }
    [("content", "Hello World")]
    rfl rfl rfl (by intro tc h; cases h) rfl rfl

/-- Claim C2: when the first model response requests only server-side
`search_github` calls, all of them are executed, the second completion is
issued on the original system and user turns followed by the assistant
tool-request turn and one tool-result turn per call keyed to its original
tool-call id, and its text content is returned with an empty client
tool-call list. -/
theorem processMessage_server_tools_second_pass (embed : String → List Int)
    (tbl : List ClipboardItem) (apiKey : String)
    (chatFirst chatSecond : List ChatMsg → Except String ResponseMessage)
    (message : String) (ctx : Context) (rm rm2 : ResponseMessage)
    (hkey : (apiKey == "xai-dummy-key") = false)
    (hchat : chatFirst (initialMessages embed tbl message ctx) = .ok rm)
    (hne : rm.tool_calls ≠ [])
    (hall : ∀ tc ∈ rm.tool_calls, tc.function_name = "search_github" ∧
      ∃ a, tc.function_arguments = .ok a)
    (hsecond : chatSecond (initialMessages embed tbl message ctx ++
      [ChatMsg.assistant rm] ++ rm.tool_calls.map toolResultMsg) = .ok rm2) :
    processMessage embed tbl apiKey chatFirst chatSecond message ctx =
      { response := rm2.content, tool_calls := [] } := by
  rw [processMessage_all_search embed tbl apiKey chatFirst chatSecond message ctx rm
    hkey hchat hne hall, hsecond]

/-- Witness for C2: a simulated model response requesting one GitHub
search, with the second pass producing the final text. -/
theorem processMessage_server_tools_second_pass_witness :
    processMessage embedLen [] "real-key"
      (fun _ => .ok { content := some "searching",
                      tool_calls := [{ id := "call-7",
                                       function_name := "search_github",
                                       function_arguments :=
                                         .ok [("query", "swiftui markdown")] }] })
      (fun _ => .ok { content := some "final answer", tool_calls := [] })
      "find me a swiftui markdown library" { app_name := some "Xcode", clipboard_items := [] } =
      { response := some "final answer", tool_calls := [] } := by
  exact processMessage_server_tools_second_pass embedLen [] "real-key" _ _
    "find me a swiftui markdown library" { app_name := some "Xcode", clipboard_items := [] }
    { content := some "searching",
      tool_calls := [{ id := "call-7",
                       function_name := "search_github",
                       function_arguments := .ok [("query", "swiftui markdown")] }] }
    { content := some "final answer", tool_calls := [] }
    rfl rfl (List.cons_ne_nil _ _)
    (by
      intro tc h
      simp only [List.mem_singleton] at h
      subst h
      exact ⟨rfl, [("query", "swiftui markdown")], rfl⟩)
    rfl

/-- Claim C3: a failure of the chat or vision capability never escapes:
an error on the first chat call, an error on the second chat call of a
server-side tool pass, and an error on the vision call are each caught and
converted into a success-shaped result whose text is the apologetic
message carrying the error detail, with an empty tool-call list for
`processMessage`. -/
theorem model_errors_fail_soft (embed : String → List Int)
    (tbl : List ClipboardItem) (apiKey : String)
    (chatFirst chatSecond : List ChatMsg → Except String ResponseMessage)
    (message : String) (ctx : Context) (img : List Nat)
    (visionCall : List Nat → Except String String) (e : String)
    (hkey : (apiKey == "xai-dummy-key") = false) :
    (chatFirst (initialMessages embed tbl message ctx) = .error e →
      processMessage embed tbl apiKey chatFirst chatSecond message ctx =
        { response := some (apologyMsg e), tool_calls := [] }) ∧
    (visionCall img = .error e →
      processVision apiKey visionCall img =
        ("I tried to look, but my eyes (Grok Vision) failed. Error: " ++ e, true)) ∧
    (∀ rm : ResponseMessage,
      chatFirst (initialMessages embed tbl message ctx) = .ok rm →
      rm.tool_calls ≠ [] →
      (∀ tc ∈ rm.tool_calls, tc.function_name = "search_github" ∧
        ∃ a, tc.function_arguments = .ok a) →
      chatSecond (initialMessages embed tbl message ctx ++ [ChatMsg.assistant rm] ++
        rm.tool_calls.map toolResultMsg) = .error e →
      processMessage embed tbl apiKey chatFirst chatSecond message ctx =
        { response := some (apologyMsg e), tool_calls := [] }) := by
  refine ⟨?_, ?_, ?_⟩
  · intro hchat
    unfold processMessage
    rw [hkey]
    simp only [Bool.false_eq_true, if_false]
    rw [hchat]
  · intro hv
    unfold processVision
    rw [hkey]
    simp only [Bool.false_eq_true, if_false]
    rw [hv]
  · intro rm hchat hne hall hsecond
    rw [processMessage_all_search embed tbl apiKey chatFirst chatSecond message ctx rm
      hkey hchat hne hall, hsecond]

/-- Witness for C3: both capabilities fail with a concrete error and the
apologetic texts come back in success shape. -/
theorem model_errors_fail_soft_witness :
    processMessage embedLen [] "real-key" (fun _ => .error "boom")
      (fun _ => .error "boom") "hi" { app_name := none, clipboard_items := [] } =
      { response := some (apologyMsg "boom"), tool_calls := [] } ∧
    processVision "real-key" (fun _ => .error "boom") [1, 2, 3] =
      ("I tried to look, but my eyes (Grok Vision) failed. Error: " ++ "boom", true) := by
  have h := model_errors_fail_soft embedLen [] "real-key" (fun _ => .error "boom")
    (fun _ => .error "boom") "hi" { app_name := none, clipboard_items := [] }
    [1, 2, 3] (fun _ => .error "boom") "boom" rfl
  exact ⟨h.1 rfl, h.2.1 rfl⟩

/-- Claim C6: in mock mode, a message that does not mention github
(after lowercasing) yields the canned mock reply, which echoes the literal
message, and an empty tool-call list. -/
theorem processMessage_mock_echo (embed : String → List Int)
    (tbl : List ClipboardItem)
    (chatFirst chatSecond : List ChatMsg → Except String ResponseMessage)
    (message : String) (ctx : Context)
    (hng : containsSub (strLower message) "github" = false) :
    processMessage embed tbl "xai-dummy-key" chatFirst chatSecond message ctx =
      { response := some (mockResponse message), tool_calls := [] } ∧
    ∃ p q, mockResponse message = p ++ message ++ q := by
  constructor
  · unfold processMessage
    simp only [beq_self_eq_true, if_true]
    rw [hng]
    simp only [Bool.false_eq_true, if_false]
  · exact ⟨"I\x27m in Mock Mode (No Grok API Key found). I heard you say: \x27",
      "\x27. My persona is: " ++ personaBlock.take 50 ++ "...",
      by simp [mockResponse, String.append_assoc]⟩

/-- Witness for C6 on a concrete github-free message. -/
theorem processMessage_mock_echo_witness :
    processMessage embedLen [] "xai-dummy-key" (fun _ => .error "unused")
      (fun _ => .error "unused") "hello there"
      { app_name := none, clipboard_items := [] } =
      { response := some (mockResponse "hello there"), tool_calls := [] } ∧
    ∃ p q, mockResponse "hello there" = p ++ "hello there" ++ q :=
  processMessage_mock_echo embedLen [] (fun _ => .error "unused")
    (fun _ => .error "unused") "hello there"
    { app_name := none, clipboard_items := [] } (by decide)

/-- Claim C7: with the credential absent the api key resolves to the dummy
key, and `processVision` returns the fixed placeholder for every image and
every vision capability, with the capability (encoding plus network
request) provably never invoked. -/
theorem processVision_mock_fixed (visionCall : List Nat → Except String String)
    (img : List Nat) :
    processVision (getApiKey none) visionCall img = (mockVisionText, false) := by
  unfold processVision getApiKey
  simp

/-- Claim C9: the reflect endpoint always takes its error branch: class
`LettaLiteAgent` defines no `run_reflector` method, so the handler call
raises `AttributeError` and the endpoint returns a 500 error instead of an
updated persona. -/
theorem agentReflect_attribute_error :
    "run_reflector" ∉ lettaLiteAgentMethods ∧
    agentReflect = .httpError 500
      "\x27LettaLiteAgent\x27 object has no attribute \x27run_reflector\x27" :=
  ⟨by decide, rfl⟩

/-- Claim C10: with the credential absent, `processMessage` returns an
empty client tool-call list for every message, every context and every
chat capability; no client tool call is ever emitted in mock mode. -/
theorem processMessage_mock_empty_tools (embed : String → List Int)
    (tbl : List ClipboardItem)
    (chatFirst chatSecond : List ChatMsg → Except String ResponseMessage)
    (message : String) (ctx : Context) :
    (processMessage embed tbl (getApiKey none) chatFirst chatSecond
      message ctx).tool_calls = [] := by
  show (processMessage embed tbl "xai-dummy-key" chatFirst chatSecond
    message ctx).tool_calls = []
  unfold processMessage
  simp only [beq_self_eq_true, if_true]
  by_cases hg : containsSub (strLower message) "github" = true
  · simp [hg]
  · simp [hg]

end Clippy
